import Mathlib

/-!
Shallow embedding of the payment-processing core of the ecommerce-app
repository (payment service): models, repository, gateway processor,
event publisher and the `PaymentService` orchestrator, together with
theorems settling the frozen claims about it.

Conventions of the embedding:
* Monetary amounts (`float` in the source) are modelled as `ℚ`; the
  operations the code performs on them (comparisons, and the summation the
  spec talks about) are exact in both representations.
* `datetime.utcnow()` is modelled as a logical clock in the system state:
  each call returns the current tick and advances the clock.
* `uuid.uuid4()` is modelled as a counter in the system state producing
  provably distinct hex strings; Python format strings such as
  `f"txn_{uuid.uuid4().hex[:16]}"` become `"txn_" ++ uuidStr k`.
* Python `dict` results of the simulated gateway are modelled as tagged
  result types carrying exactly the fields the orchestrator reads
  (`success`, `transaction_id`, `payment_intent_id`, `refund_id`,
  `error_code`, `error_message`).
* `random.random() < self.success_rate` and `random.choice(...)` in the
  simulated gateway are modelled by a caller-supplied behaviour oracle
  (`GwBehavior`), consumed call by call through a counter in the state.
* A Python exception is a `PyExn` carrying `str(e)`; a call that can raise
  returns `Except PyExn α` together with the state it left behind
  (side effects performed before the raise persist).
-/

/-- `PaymentMethod` enum from `models/payment.py`. -/
inductive PaymentMethod where
  | credit_card
  | debit_card
  | paypal
  | stripe
  deriving DecidableEq, Repr

/-- `PaymentStatus` enum from `models/payment.py`. -/
inductive PaymentStatus where
  | pending
  | processing
  | authorized
  | captured
  | failed
  | refunded
  | partially_refunded
  deriving DecidableEq, Repr

/-- `Currency` enum from `models/payment.py`. -/
inductive Currency where
  | usd
  | eur
  | gbp
  deriving DecidableEq, Repr

/-- A raised Python exception, carrying `str(e)`. -/
structure PyExn where
  msg : String
  deriving DecidableEq, Repr

/-- Result of `PaymentProcessor.process_payment` / `authorize_payment` /
`capture_payment` as read by the orchestrator: the success dict carries
`transaction_id` and `payment_intent_id`, the failure dict carries
`error_code` and `error_message`. -/
inductive ProcResult where
  | ok (transaction_id : String) (payment_intent_id : String)
  | fail (error_code : String) (error_message : String)
  deriving DecidableEq, Repr

/-- Result of `PaymentProcessor.refund_payment` as read by the
orchestrator. -/
inductive RefundResult where
  | ok (refund_id : String)
  | fail (error_code : String) (error_message : String)
  deriving DecidableEq, Repr

/-- Domain model `Payment` from `models/payment.py`. -/
structure Payment where
  id : String
  order_id : String
  amount : ℚ
  currency : Currency
  payment_method : PaymentMethod
  status : PaymentStatus
  transaction_id : Option String := none
  payment_intent_id : Option String := none
  provider_response : Option ProcResult := none
  error_message : Option String := none
  created_at : Nat
  updated_at : Nat
  authorized_at : Option Nat := none
  captured_at : Option Nat := none
  refunded_at : Option Nat := none
  deriving DecidableEq, Repr

/-- Row of the `refunds` table (`RefundModel` in `database/models.py`). -/
structure RefundRecord where
  id : String
  payment_id : String
  refund_id : String
  amount : ℚ
  reason : Option String := none
  created_at : Nat
  deriving DecidableEq, Repr

/-- `ProcessPaymentRequest` from `models/payment.py`. -/
structure ProcessPaymentRequest where
  order_id : String
  amount : ℚ
  currency : Currency := Currency.usd
  payment_method : PaymentMethod
  deriving DecidableEq, Repr

/-- `RefundRequest` from `models/payment.py`. -/
structure RefundRequest where
  transaction_id : String
  amount : ℚ
  reason : Option String := none
  deriving DecidableEq, Repr

/-- `PaymentResponse` from `models/payment.py`. -/
structure PaymentResponse where
  success : Bool
  transaction_id : Option String := none
  payment_intent_id : Option String := none
  status : PaymentStatus
  error : Option String := none
  deriving DecidableEq, Repr

/-- `RefundResponse` from `models/payment.py`. -/
structure RefundResponse where
  success : Bool
  refund_id : Option String := none
  amount : ℚ
  error : Option String := none
  deriving DecidableEq, Repr

/-- Equality of `Except` results is decidable (needed to evaluate the
embedding on concrete runs). -/
instance {e a : Type} [DecidableEq e] [DecidableEq a] :
    DecidableEq (Except e a) := fun x y =>
  match x, y with
  | Except.ok u, Except.ok v =>
    if h : u = v then isTrue (by rw [h]) else isFalse (by simp [h])
  | Except.error u, Except.error v =>
    if h : u = v then isTrue (by rw [h]) else isFalse (by simp [h])
  | Except.ok _, Except.error _ => isFalse (by simp)
  | Except.error _, Except.ok _ => isFalse (by simp)

/-- Payload of a published Kafka event, per event type
(`event_publisher.py`). -/
inductive EventData where
  | successData (order_id : String) (amount : ℚ) (currency : Currency)
      (method : PaymentMethod) (transaction_id payment_intent_id : Option String)
  | failedData (order_id : String) (amount : ℚ) (currency : Currency)
      (method : PaymentMethod) (error : String)
  | refundedData (order_id : String) (refund_id : String) (amount : ℚ)
      (original_amount : ℚ) (currency : Currency)
  deriving DecidableEq, Repr

/-- A Kafka event message `{event_type, payment_id, timestamp, data}`
as built by `EventPublisher._publish_event`. -/
structure EventMsg where
  event_type : String
  payment_id : String
  timestamp : Nat
  data : EventData
  deriving DecidableEq, Repr

/-- Which gateway entry point was invoked (instrumentation used to state
"the gateway's refund is never invoked"-style properties). -/
inductive GwCall where
  | authorize
  | capture
  | refund
  | void
  deriving DecidableEq, Repr

/-- The whole observable system state: the record store's two tables, the
log of event publications attempted, and the counters backing the models
of `uuid4`, `utcnow`, the gateway's randomness and the Kafka producer. -/
structure SysState where
  payments : List Payment
  refunds : List RefundRecord
  attempts : List EventMsg
  gwLog : List GwCall
  uuidCtr : Nat
  gwCtr : Nat
  pubCtr : Nat
  clock : Nat
  deriving DecidableEq, Repr

/-- One `datetime.utcnow()` call: returns the tick and advances the
clock. -/
def SysState.tick (st : SysState) : Nat × SysState :=
  (st.clock, { st with clock := st.clock + 1 })

/-- Hex digit characters used for the modelled `uuid4().hex` strings. -/
def hexChar (d : Nat) : Char :=
  Char.ofNat (if d < 10 then 48 + d else 87 + d)

/-- Inverse of `hexChar` on digits below 16. -/
def hexVal (c : Char) : Nat :=
  if c.toNat ≤ 57 then c.toNat - 48 else c.toNat - 87

/-- Little-endian base-16 digits, fuel-structured so it reduces in the
kernel (the fuel is the number itself, always sufficient). -/
def hexDigsAux : Nat → Nat → List Nat
  | _, 0 => []
  | 0, _ + 1 => []
  | fuel + 1, n + 1 => ((n + 1) % 16) :: hexDigsAux fuel ((n + 1) / 16)

/-- Base-16 digits of `n`, little-endian. -/
def hexDigs (n : Nat) : List Nat := hexDigsAux n n

/-- Decode of `hexDigs` (used to prove the uuid model injective). -/
def unhex : List Nat → Nat
  | [] => 0
  | d :: ds => d + 16 * unhex ds

/-- The string standing in for the `n`-th `uuid.uuid4().hex` value. -/
def uuidStr (n : Nat) : String :=
  String.mk ('u' :: (hexDigs n).map hexChar)

/-- One `uuid.uuid4()` call: returns the fresh hex string and advances
the counter. -/
def SysState.freshUuid (st : SysState) : String × SysState :=
  (uuidStr st.uuidCtr, { st with uuidCtr := st.uuidCtr + 1 })

namespace PaymentRepository

/-- `UPDATE payments SET ... WHERE id = pid`: apply `f` to every row whose
id matches. -/
def updateWhere (pid : String) (f : Payment → Payment) :
    List Payment → List Payment :=
  List.map fun p => if p.id = pid then f p else p

/-- `PaymentRepository.get_by_id`. -/
def get_by_id (st : SysState) (payment_id : String) : Option Payment :=
  st.payments.find? fun p => p.id == payment_id

/-- `PaymentRepository.get_by_order_id`. -/
def get_by_order_id (st : SysState) (order_id : String) : Option Payment :=
  st.payments.find? fun p => p.order_id == order_id

/-- `PaymentRepository.get_by_transaction_id`. -/
def get_by_transaction_id (st : SysState) (transaction_id : String) :
    Option Payment :=
  st.payments.find? fun p => p.transaction_id == some transaction_id

/-- `PaymentRepository.create_payment`: a fresh uuid id, status PENDING,
`created_at` and `updated_at` each from their own `datetime.utcnow()`
call, row appended to the table. -/
def create_payment (st : SysState) (order_id : String) (amount : ℚ)
    (currency : Currency) (payment_method : PaymentMethod) :
    Payment × SysState :=
  let (pid, st1) := st.freshUuid
  let (t1, st2) := st1.tick
  let (t2, st3) := st2.tick
  let p : Payment :=
    { id := pid, order_id := order_id, amount := amount,
      currency := currency, payment_method := payment_method,
      status := PaymentStatus.pending, created_at := t1, updated_at := t2 }
  (p, { st3 with payments := st3.payments ++ [p] })

/-- `PaymentRepository.update_status`: an unconditional `UPDATE ... WHERE
id = pid` setting `status` and `updated_at`, then a re-read by id — for
an unknown id this updates zero rows and returns `None`. -/
def update_status (st : SysState) (payment_id : String)
    (status : PaymentStatus) : Option Payment × SysState :=
  let (t, st1) := st.tick
  let newPayments := updateWhere payment_id
    (fun p => { p with status := status, updated_at := t }) st1.payments
  let st2 := { st1 with payments := newPayments }
  (get_by_id st2 payment_id, st2)

/-- `PaymentRepository.update_payment_success`: one `now` used for
`authorized_at`, `captured_at` and `updated_at`; sets status CAPTURED,
transaction id, intent id and provider response, then re-reads. -/
def update_payment_success (st : SysState) (payment_id : String)
    (transaction_id : String) (payment_intent_id : String)
    (provider_response : ProcResult) : Option Payment × SysState :=
  let (now, st1) := st.tick
  let newPayments := updateWhere payment_id
    (fun p => { p with
      status := PaymentStatus.captured,
      transaction_id := some transaction_id,
      payment_intent_id := some payment_intent_id,
      provider_response := some provider_response,
      authorized_at := some now,
      captured_at := some now,
      updated_at := now }) st1.payments
  let st2 := { st1 with payments := newPayments }
  (get_by_id st2 payment_id, st2)

/-- `PaymentRepository.update_payment_failure`: sets status FAILED, the
error message and the (possibly absent) provider response, then
re-reads. -/
def update_payment_failure (st : SysState) (payment_id : String)
    (error_message : String) (provider_response : Option ProcResult) :
    Option Payment × SysState :=
  let (t, st1) := st.tick
  let newPayments := updateWhere payment_id
    (fun p => { p with
      status := PaymentStatus.failed,
      error_message := some error_message,
      provider_response := provider_response,
      updated_at := t }) st1.payments
  let st2 := { st1 with payments := newPayments }
  (get_by_id st2 payment_id, st2)

/-- `PaymentRepository.add_refund_record`: appends a refund row with a
fresh uuid id. -/
def add_refund_record (st : SysState) (payment_id : String)
    (refund_id : String) (amount : ℚ) (reason : Option String) : SysState :=
  let (rid, st1) := st.freshUuid
  let (t, st2) := st1.tick
  let r : RefundRecord :=
    { id := rid, payment_id := payment_id, refund_id := refund_id,
      amount := amount, reason := reason, created_at := t }
  { st2 with refunds := st2.refunds ++ [r] }

end PaymentRepository

/-- Caller-controlled model of the simulated gateway's randomness
(`payment_processor.py`): `succeed n` decides the `n`-th
`_should_succeed()` call, `errPick n` the `n`-th `random.choice` over the
authorize error codes. -/
structure GwBehavior where
  succeed : Nat → Bool
  errPick : Nat → Nat

/-- A gateway behaviour whose calls always succeed. -/
def gwAlwaysOk : GwBehavior := ⟨fun _ => true, fun _ => 0⟩

namespace PaymentProcessor

/-- `PaymentProcessor._get_error_message`. -/
def get_error_message (error_code : String) : String :=
  if error_code = "insufficient_funds" then ("Insufficient funds in account")
  else if error_code = "card_declined" then ("Card was declined by issuer")
  else if error_code = "expired_card" then ("Card has expired")
  else if error_code = "invalid_card" then ("Invalid card number")
  else if error_code = "capture_failed" then ("Failed to capture payment")
  else if error_code = "refund_failed" then ("Failed to process refund")
  else ("Payment processing error")

/-- The list `random.choice` draws the authorize failure code from. -/
def authErrorCodes : List String :=
  ["insufficient_funds", "card_declined", "expired_card"]

/-- One `_should_succeed()` call: consults the behaviour oracle at the
current gateway counter and advances it. -/
def shouldSucceed (gw : GwBehavior) (st : SysState) : Bool × SysState :=
  (gw.succeed st.gwCtr, { st with gwCtr := st.gwCtr + 1 })

/-- `PaymentProcessor.authorize_payment`: on success fresh
`pi_...`/`txn_...` ids and an `authorized_at` timestamp; on failure a
random error code with its message. -/
def authorize_payment (gw : GwBehavior) (st : SysState) (_amount : ℚ)
    (_payment_method : PaymentMethod) : ProcResult × SysState :=
  let st0 := { st with gwLog := st.gwLog ++ [GwCall.authorize] }
  let (b, st1) := shouldSucceed gw st0
  if b then
    let (piHex, st2) := st1.freshUuid
    let (txHex, st3) := st2.freshUuid
    let (_t, st4) := st3.tick
    (ProcResult.ok ("txn_" ++ txHex) ("pi_" ++ piHex), st4)
  else
    let code := (authErrorCodes.getD (gw.errPick st.gwCtr % 3) "card_declined")
    (ProcResult.fail code (get_error_message code), st1)

/-- `PaymentProcessor.capture_payment`: on success a fresh `txn_...` id
and a `captured_at` timestamp, keeping the given intent id; on failure
the fixed `capture_failed` error. -/
def capture_payment (gw : GwBehavior) (st : SysState)
    (payment_intent_id : String) (_amount : ℚ) : ProcResult × SysState :=
  let st0 := { st with gwLog := st.gwLog ++ [GwCall.capture] }
  let (b, st1) := shouldSucceed gw st0
  if b then
    let (txHex, st2) := st1.freshUuid
    let (_t, st3) := st2.tick
    (ProcResult.ok ("txn_" ++ txHex) payment_intent_id, st3)
  else
    (ProcResult.fail ("capture_failed") "Failed to capture payment", st1)

/-- `PaymentProcessor.process_payment`: authorize, and only if that
succeeded, capture; the capture result (or the authorize failure) is
returned verbatim. -/
def process_payment (gw : GwBehavior) (st : SysState) (amount : ℚ)
    (payment_method : PaymentMethod) : ProcResult × SysState :=
  match authorize_payment gw st amount payment_method with
  | (ProcResult.fail c m, st1) => (ProcResult.fail c m, st1)
  | (ProcResult.ok _tx pi, st1) => capture_payment gw st1 pi amount

/-- `PaymentProcessor.refund_payment`: on success a fresh `re_...` refund
id and a `refunded_at` timestamp; on failure the fixed `refund_failed`
error. -/
def refund_payment (gw : GwBehavior) (st : SysState)
    (_transaction_id : String) (_amount : ℚ) (_reason : Option String) :
    RefundResult × SysState :=
  let st0 := { st with gwLog := st.gwLog ++ [GwCall.refund] }
  let (b, st1) := shouldSucceed gw st0
  if b then
    let (reHex, st2) := st1.freshUuid
    let (_t, st3) := st2.tick
    (RefundResult.ok ("re_" ++ reHex), st3)
  else
    (RefundResult.fail ("refund_failed") "Failed to process refund", st1)

end PaymentProcessor

namespace EventPublisher

/-- Behaviour oracle for `producer.send`: `n ↦ false` means the `n`-th
send raises. -/
def SendBehavior := Nat → Bool

/-- The body of `EventPublisher._publish_event`'s `try` block: build the
event (one `utcnow` call), attempt the send (recorded in the attempts
log, consuming the producer counter), raising when the send fails. -/
def publishEventBody (sendOk : SendBehavior) (st : SysState)
    (event_type : String) (payment_id : String) (data : EventData) :
    Except PyExn Unit × SysState :=
  let (t, st1) := st.tick
  let ev : EventMsg := { event_type := event_type, payment_id := payment_id,
                         timestamp := t, data := data }
  let ok := sendOk st1.pubCtr
  let st2 := { st1 with attempts := st1.attempts ++ [ev],
                        pubCtr := st1.pubCtr + 1 }
  if ok then (Except.ok (), st2)
  else (Except.error ⟨"KafkaSendError"⟩, st2)

/-- `EventPublisher._publish_event`: the body wrapped in
`try ... except Exception: logger.error(...)` — any send failure is
swallowed. -/
def publish_event (sendOk : SendBehavior) (st : SysState)
    (event_type : String) (payment_id : String) (data : EventData) :
    SysState :=
  match publishEventBody sendOk st event_type payment_id data with
  | (Except.ok _, st') => st'
  | (Except.error _, st') => st'

/-- `EventPublisher.publish_payment_successful`. -/
def publish_payment_successful (sendOk : SendBehavior) (st : SysState)
    (payment : Payment) : SysState :=
  publish_event sendOk st ("payment.successful") payment.id
    (EventData.successData payment.order_id payment.amount payment.currency
      payment.payment_method payment.transaction_id payment.payment_intent_id)

/-- `EventPublisher.publish_payment_failed`. -/
def publish_payment_failed (sendOk : SendBehavior) (st : SysState)
    (payment : Payment) (error_message : String) : SysState :=
  publish_event sendOk st ("payment.failed") payment.id
    (EventData.failedData payment.order_id payment.amount payment.currency
      payment.payment_method error_message)

/-- `EventPublisher.publish_payment_refunded`. -/
def publish_payment_refunded (sendOk : SendBehavior) (st : SysState)
    (payment : Payment) (refund_id : String) (amount : ℚ) : SysState :=
  publish_event sendOk st ("payment.refunded") payment.id
    (EventData.refundedData payment.order_id refund_id amount
      payment.amount payment.currency)

end EventPublisher

/-- Rendering of a `PaymentStatus` into the refund rejection f-string
(the str-enum value, as in `models/payment.py`). -/
def statusStr : PaymentStatus → String
  | PaymentStatus.pending => "pending"
  | PaymentStatus.processing => "processing"
  | PaymentStatus.authorized => "authorized"
  | PaymentStatus.captured => "captured"
  | PaymentStatus.failed => "failed"
  | PaymentStatus.refunded => "refunded"
  | PaymentStatus.partially_refunded => "partially_refunded"

/-- The collaborators `PaymentService` is constructed with (repository,
processor, event publisher), each `await`-ed call modelled as a state
transformer that may raise. Instantiated with the concrete embeddings by
`realCollab`; kept abstract so that behaviour under faulting
collaborators (store down, publisher down) is expressible. -/
structure Collab where
  create_payment : SysState → String → ℚ → Currency → PaymentMethod →
    Except PyExn Payment × SysState
  update_status : SysState → String → PaymentStatus →
    Except PyExn (Option Payment) × SysState
  update_payment_success : SysState → String → String → String → ProcResult →
    Except PyExn (Option Payment) × SysState
  update_payment_failure : SysState → String → String → Option ProcResult →
    Except PyExn (Option Payment) × SysState
  add_refund_record : SysState → String → String → ℚ → Option String →
    Except PyExn Unit × SysState
  get_by_transaction_id : SysState → String →
    Except PyExn (Option Payment) × SysState
  processor_process : SysState → ℚ → PaymentMethod →
    Except PyExn ProcResult × SysState
  processor_refund : SysState → String → ℚ → Option String →
    Except PyExn RefundResult × SysState
  publish_successful : SysState → Payment → Except PyExn Unit × SysState
  publish_failed : SysState → Payment → String → Except PyExn Unit × SysState
  publish_refunded : SysState → Payment → String → ℚ →
    Except PyExn Unit × SysState

namespace PaymentService

/-- The `try:` block of `PaymentService.process_payment` (steps 2-5):
transition to PROCESSING, call the gateway, then either record the
success and publish `payment.successful`, or record the failure and
publish `payment.failed`. A `None` re-read passed on to the publisher is
the `AttributeError` Python would raise on `payment.id`. -/
def process_payment_try (c : Collab) (st : SysState) (payment : Payment)
    (req : ProcessPaymentRequest) : Except PyExn PaymentResponse × SysState :=
  match c.update_status st payment.id PaymentStatus.processing with
  | (Except.error e, st1) => (Except.error e, st1)
  | (Except.ok _, st1) =>
    match c.processor_process st1 req.amount req.payment_method with
    | (Except.error e, st2) => (Except.error e, st2)
    | (Except.ok (ProcResult.ok tx pi), st2) =>
      match c.update_payment_success st2 payment.id tx pi
          (ProcResult.ok tx pi) with
      | (Except.error e, st3) => (Except.error e, st3)
      | (Except.ok none, st3) =>
        (Except.error ⟨"AttributeError"⟩, st3)
      | (Except.ok (some payment2), st3) =>
        match c.publish_successful st3 payment2 with
        | (Except.error e, st4) => (Except.error e, st4)
        | (Except.ok _, st4) =>
          (Except.ok { success := true, transaction_id := some tx,
                       payment_intent_id := some pi,
                       status := PaymentStatus.captured }, st4)
    | (Except.ok (ProcResult.fail code msg), st2) =>
      match c.update_payment_failure st2 payment.id msg
          (some (ProcResult.fail code msg)) with
      | (Except.error e, st3) => (Except.error e, st3)
      | (Except.ok none, st3) =>
        (Except.error ⟨"AttributeError"⟩, st3)
      | (Except.ok (some payment2), st3) =>
        match c.publish_failed st3 payment2 msg with
        | (Except.error e, st4) => (Except.error e, st4)
        | (Except.ok _, st4) =>
          (Except.ok { success := false, status := PaymentStatus.failed,
                       error := some msg }, st4)

/-- `PaymentService.process_payment`: create the PENDING record, run the
`try:` block, and on any exception mark the record FAILED (best effort —
this store call itself may raise, in which case the new exception
propagates to the caller) and return a structured failure. -/
def process_payment (c : Collab) (st : SysState)
    (req : ProcessPaymentRequest) : Except PyExn PaymentResponse × SysState :=
  match c.create_payment st req.order_id req.amount req.currency
      req.payment_method with
  | (Except.error e, st1) => (Except.error e, st1)
  | (Except.ok payment, st1) =>
    match process_payment_try c st1 payment req with
    | (Except.ok resp, st2) => (Except.ok resp, st2)
    | (Except.error e, st2) =>
      match c.update_payment_failure st2 payment.id e.msg none with
      | (Except.error e2, st3) => (Except.error e2, st3)
      | (Except.ok _, st3) =>
        (Except.ok { success := false, status := PaymentStatus.failed,
                     error := some ("Payment processing error: " ++ e.msg) },
         st3)

/-- The `try:` block of `PaymentService.refund_payment` (steps 3-5):
gateway refund, then on success compute the new status by comparing the
*requested* amount against the payment's original amount, update the
status, append the refund row and publish `payment.refunded`. -/
def refund_payment_try (c : Collab) (st : SysState) (payment : Payment)
    (req : RefundRequest) : Except PyExn RefundResponse × SysState :=
  match c.processor_refund st req.transaction_id req.amount req.reason with
  | (Except.error e, st1) => (Except.error e, st1)
  | (Except.ok (RefundResult.fail _code msg), st1) =>
    (Except.ok { success := false, amount := req.amount,
                 error := some msg }, st1)
  | (Except.ok (RefundResult.ok refund_id), st1) =>
    let new_status := if payment.amount ≤ req.amount
      then PaymentStatus.refunded else PaymentStatus.partially_refunded
    match c.update_status st1 payment.id new_status with
    | (Except.error e, st2) => (Except.error e, st2)
    | (Except.ok _, st2) =>
      match c.add_refund_record st2 payment.id refund_id req.amount
          req.reason with
      | (Except.error e, st3) => (Except.error e, st3)
      | (Except.ok _, st3) =>
        match c.publish_refunded st3 payment refund_id req.amount with
        | (Except.error e, st4) => (Except.error e, st4)
        | (Except.ok _, st4) =>
          (Except.ok { success := true, refund_id := some refund_id,
                       amount := req.amount }, st4)

/-- `PaymentService.refund_payment`: look up the payment by transaction
id; reject when absent or when its status is neither CAPTURED nor
PARTIALLY_REFUNDED; otherwise run the `try:` block, converting any
exception into a structured failure. -/
def refund_payment (c : Collab) (st : SysState) (req : RefundRequest) :
    Except PyExn RefundResponse × SysState :=
  match c.get_by_transaction_id st req.transaction_id with
  | (Except.error e, st1) => (Except.error e, st1)
  | (Except.ok none, st1) =>
    (Except.ok { success := false, amount := req.amount,
                 error := some ("Payment not found") }, st1)
  | (Except.ok (some payment), st1) =>
    if payment.status = PaymentStatus.captured ∨
        payment.status = PaymentStatus.partially_refunded then
      match refund_payment_try c st1 payment req with
      | (Except.ok resp, st2) => (Except.ok resp, st2)
      | (Except.error e, st2) =>
        (Except.ok { success := false, amount := req.amount,
                     error := some ("Refund processing error: " ++ e.msg) },
         st2)
    else
      (Except.ok { success := false, amount := req.amount,
                   error := some ("Payment in status "
                     ++ statusStr payment.status ++ " cannot be refunded") },
       st1)

end PaymentService

/-- The concrete collaborators: the embedded repository, the embedded
processor driven by the behaviour oracle `gw`, and the embedded
publisher driven by `sendOk`. Repository and processor calls never raise
here (infrastructure healthy); the publisher swallows its own send
failures by construction. -/
def realCollab (gw : GwBehavior) (sendOk : EventPublisher.SendBehavior) :
    Collab where
  create_payment st o a c m :=
    let (p, st') := PaymentRepository.create_payment st o a c m
    (Except.ok p, st')
  update_status st pid s :=
    let (r, st') := PaymentRepository.update_status st pid s
    (Except.ok r, st')
  update_payment_success st pid tx pi pr :=
    let (r, st') := PaymentRepository.update_payment_success st pid tx pi pr
    (Except.ok r, st')
  update_payment_failure st pid em pr :=
    let (r, st') := PaymentRepository.update_payment_failure st pid em pr
    (Except.ok r, st')
  add_refund_record st pid rid a rsn :=
    (Except.ok (), PaymentRepository.add_refund_record st pid rid a rsn)
  get_by_transaction_id st tx :=
    (Except.ok (PaymentRepository.get_by_transaction_id st tx), st)
  processor_process st a m :=
    let (r, st') := PaymentProcessor.process_payment gw st a m
    (Except.ok r, st')
  processor_refund st tx a rsn :=
    let (r, st') := PaymentProcessor.refund_payment gw st tx a rsn
    (Except.ok r, st')
  publish_successful st p :=
    (Except.ok (), EventPublisher.publish_payment_successful sendOk st p)
  publish_failed st p em :=
    (Except.ok (), EventPublisher.publish_payment_failed sendOk st p em)
  publish_refunded st p rid a :=
    (Except.ok (), EventPublisher.publish_payment_refunded sendOk st p rid a)

/-- The invariant backing id uniqueness: every stored payment's id,
transaction id and intent id were produced by an earlier value of the
uuid counter. Holds of the initial empty store and is preserved by the
orchestrator's operations. -/
def idsBound (st : SysState) : Prop :=
  ∀ p ∈ st.payments,
    (∃ k < st.uuidCtr, p.id = uuidStr k) ∧
    (∀ tx, p.transaction_id = some tx →
      ∃ k < st.uuidCtr, tx = "txn_" ++ uuidStr k) ∧
    (∀ pi, p.payment_intent_id = some pi →
      ∃ k < st.uuidCtr, pi = "pi_" ++ uuidStr k)

/-- The store with no payments, no refunds, all counters zero. -/
def emptyState : SysState :=
  { payments := [], refunds := [], attempts := [], gwLog := [],
    uuidCtr := 0, gwCtr := 0, pubCtr := 0, clock := 0 }

/-- Collaborators with an always-succeeding gateway and an
always-succeeding Kafka send. -/
def okCollab : Collab := realCollab gwAlwaysOk (fun _ => true)

/-- One request handled end to end by the orchestrator with concrete
collaborator behaviours (used to run the service over operation
sequences). -/
inductive ServiceOp where
  | proc (gw : GwBehavior) (sendOk : EventPublisher.SendBehavior)
      (req : ProcessPaymentRequest)
  | ref (gw : GwBehavior) (sendOk : EventPublisher.SendBehavior)
      (req : RefundRequest)

/-- Run one orchestrator request against the concrete collaborators. -/
def runOp (st : SysState) : ServiceOp → SysState
  | ServiceOp.proc gw sendOk req =>
    (PaymentService.process_payment (realCollab gw sendOk) st req).2
  | ServiceOp.ref gw sendOk req =>
    (PaymentService.refund_payment (realCollab gw sendOk) st req).2

/-- Run a sequence of orchestrator requests. -/
def runOps (st : SysState) (ops : List ServiceOp) : SysState :=
  ops.foldl runOp st

/-- No stored payment has its `refunded_at` timestamp set. -/
def noRefundedAt (st : SysState) : Prop :=
  ∀ p ∈ st.payments, p.refunded_at = none

/-- Forget the two fields the refund path is allowed to change on a
payment row (status, updated_at); used to state its frame condition. -/
def eraseStatusUpd (p : Payment) : Payment :=
  { p with status := PaymentStatus.pending, updated_at := 0 }

/-- Collaborators whose store raises `e` on the status transition (the
"store unavailable after the gateway call" fault), everything else
healthy. -/
def statusFaultCollab (e : PyExn) (gw : GwBehavior)
    (sendOk : EventPublisher.SendBehavior) : Collab :=
  { realCollab gw sendOk with
      update_status := fun st _ _ => (Except.error e, st) }

/-- Collaborators whose store raises on the status transition and also on
the best-effort failure marking: the double-fault scenario. -/
def doubleFaultCollab (e e2 : PyExn) (gw : GwBehavior)
    (sendOk : EventPublisher.SendBehavior) : Collab :=
  { realCollab gw sendOk with
      update_status := fun st _ _ => (Except.error e, st),
      update_payment_failure := fun st _ _ _ => (Except.error e2, st) }

/-- The fixed CAPTURED payment (order "ORD-1", 100.00 USD, credit card,
transaction "tx1") that the concrete refund scenarios start from. -/
def capturedPayment : Payment :=
  { id := "p1", order_id := "ORD-1", amount := 100,
    currency := Currency.usd, payment_method := PaymentMethod.credit_card,
    status := PaymentStatus.captured, transaction_id := some ("tx1"),
    created_at := 0, updated_at := 0 }

/-- Store holding exactly `capturedPayment`. -/
def capturedState : SysState :=
  { payments := [capturedPayment], refunds := [], attempts := [],
    gwLog := [], uuidCtr := 0, gwCtr := 0, pubCtr := 0, clock := 1 }

/-- Scenario run: refund 40.00, then 60.00, then 10.00 against the
captured 100.00 payment, gateway always succeeding. -/
def scenRef1 : Except PyExn RefundResponse × SysState :=
  PaymentService.refund_payment okCollab capturedState ⟨"tx1", 40, none⟩

/-- Second scenario refund (60.00). -/
def scenRef2 : Except PyExn RefundResponse × SysState :=
  PaymentService.refund_payment okCollab scenRef1.2 ⟨"tx1", 60, none⟩

/-- Third scenario refund (10.00). -/
def scenRef3 : Except PyExn RefundResponse × SysState :=
  PaymentService.refund_payment okCollab scenRef2.2 ⟨"tx1", 10, none⟩

/-- Over-refund run: two refunds of 60.00 each against the captured
100.00 payment, gateway always succeeding. -/
def overRef1 : Except PyExn RefundResponse × SysState :=
  PaymentService.refund_payment okCollab capturedState ⟨"tx1", 60, none⟩

/-- Second over-refund (60.00 again, exceeding the remaining 40.00). -/
def overRef2 : Except PyExn RefundResponse × SysState :=
  PaymentService.refund_payment okCollab overRef1.2 ⟨"tx1", 60, none⟩

theorem unhex_hexDigsAux : ∀ fuel n, n ≤ fuel →
    unhex (hexDigsAux fuel n) = n := by
  intro fuel
  induction fuel with
  | zero => intro n h; interval_cases n; rfl
  | succ f ih =>
    intro n h
    match n with
    | 0 => rfl
    | n + 1 =>
      have hlt : (n + 1) / 16 < n + 1 :=
        Nat.div_lt_self (Nat.succ_pos n) (by norm_num)
      have hle : (n + 1) / 16 ≤ f := by omega
      simp only [hexDigsAux, unhex, ih _ hle]
      omega

theorem unhex_hexDigs (n : Nat) : unhex (hexDigs n) = n :=
  unhex_hexDigsAux n n le_rfl

theorem hexDigsAux_lt : ∀ fuel n d, d ∈ hexDigsAux fuel n → d < 16 := by
  intro fuel
  induction fuel with
  | zero =>
    intro n d h
    match n with
    | 0 => simp [hexDigsAux] at h
    | n + 1 => simp [hexDigsAux] at h
  | succ f ih =>
    intro n d h
    match n with
    | 0 => simp [hexDigsAux] at h
    | n + 1 =>
      simp only [hexDigsAux, List.mem_cons] at h
      rcases h with h | h
      · omega
      · exact ih _ _ h

theorem hexVal_hexChar (d : Nat) (h : d < 16) : hexVal (hexChar d) = d := by
  interval_cases d <;> decide

theorem uuidStr_injective : Function.Injective uuidStr := by
  intro a b h
  have hdata : ('u' :: (hexDigs a).map hexChar)
      = ('u' :: (hexDigs b).map hexChar) := congrArg String.data h
  have hmap : (hexDigs a).map hexChar = (hexDigs b).map hexChar :=
    List.tail_eq_of_cons_eq hdata
  have key : ∀ l : List Nat, (∀ d ∈ l, d < 16) →
      (l.map hexChar).map hexVal = l := by
    intro l hl
    induction l with
    | nil => rfl
    | cons x xs ih =>
      simp only [List.map_cons, List.cons.injEq]
      exact ⟨hexVal_hexChar x (hl x (List.mem_cons_self x xs)),
        ih fun d hd => hl d (List.mem_cons_of_mem x hd)⟩
  have ha := key (hexDigs a) fun d hd => hexDigsAux_lt a a d hd
  have hb := key (hexDigs b) fun d hd => hexDigsAux_lt b b d hd
  have hdig : hexDigs a = hexDigs b := by rw [← ha, ← hb, hmap]
  have := congrArg unhex hdig
  rwa [unhex_hexDigs, unhex_hexDigs] at this

theorem string_append_left_cancel {s t u : String} (h : s ++ t = s ++ u) :
    t = u := by
  have hd := congrArg String.data h
  rw [String.data_append, String.data_append] at hd
  have := List.append_cancel_left hd
  cases t; cases u
  exact congrArg String.mk (by simpa using this)

theorem prefixed_uuid_injective (pre : String) {a b : Nat}
    (h : pre ++ uuidStr a = pre ++ uuidStr b) : a = b :=
  uuidStr_injective (string_append_left_cancel h)

theorem prefixed_uuid_ne_empty (pre : String) (k : Nat) :
    pre ++ uuidStr k ≠ "" := by
  intro h
  have hd := congrArg String.data h
  rw [String.data_append] at hd
  simp [uuidStr] at hd

theorem find?_append_none {α} (p : α → Bool) (l1 l2 : List α)
    (h : l1.find? p = none) : (l1 ++ l2).find? p = l2.find? p := by
  induction l1 with
  | nil => simp
  | cons x xs ih =>
    by_cases hx : p x = true
    · rw [List.find?_cons_of_pos _ hx] at h
      exact absurd h (by simp)
    · rw [List.find?_cons_of_neg _ hx] at h
      rw [List.cons_append, List.find?_cons_of_neg _ hx]
      exact ih h

theorem updateWhere_no_match (ps : List Payment) (pid : String)
    (f : Payment → Payment) (h : ∀ p ∈ ps, p.id ≠ pid) :
    PaymentRepository.updateWhere pid f ps = ps := by
  induction ps with
  | nil => rfl
  | cons q qs ih =>
    simp only [PaymentRepository.updateWhere, List.map_cons]
    rw [if_neg (h q (List.mem_cons_self q qs))]
    have := ih fun p hp => h p (List.mem_cons_of_mem q hp)
    simp only [PaymentRepository.updateWhere] at this
    rw [this]

theorem find?_id_none (ps : List Payment) (pid : String)
    (h : ∀ p ∈ ps, p.id ≠ pid) :
    ps.find? (fun p => p.id == pid) = none := by
  rw [List.find?_eq_none]
  intro p hp
  simp [h p hp]

theorem find?_updateWhere (ps : List Payment) (pid : String)
    (f : Payment → Payment) (hf : ∀ p, (f p).id = p.id) :
    (PaymentRepository.updateWhere pid f ps).find? (fun p => p.id == pid)
      = (ps.find? (fun p => p.id == pid)).map f := by
  induction ps with
  | nil => rfl
  | cons q qs ih =>
    by_cases hq : q.id = pid
    · simp [PaymentRepository.updateWhere, List.find?, hq, hf]
    · simp only [PaymentRepository.updateWhere, List.map_cons, if_neg hq]
      rw [List.find?_cons_of_neg _ (by simp [hq]),
          List.find?_cons_of_neg _ (by simp [hq])]
      exact ih

/-- Claim C2 — the run the spec's scenario prescribes (payment of 100.00
captured, then refunds of 40.00, 60.00 and 10.00 with an
always-succeeding gateway): the first refund succeeds and leaves
PARTIALLY_REFUNDED, but the second refund of 60.00, though it returns
success, leaves the status PARTIALLY_REFUNDED rather than REFUNDED, and
the third refund of a positive amount (10.00) is accepted rather than
rejected — `refund_payment` compares each request's amount alone against
the original amount and keeps no cumulative refunded total. -/
theorem refund_scenario_divergence :
    scenRef1.1 = Except.ok (RefundResponse.mk true (some ("re_u")) 40 none) ∧
    (PaymentRepository.get_by_id scenRef1.2 ("p1")).map Payment.status
      = some PaymentStatus.partially_refunded ∧
    scenRef2.1 = Except.ok (RefundResponse.mk true (some ("re_u2")) 60 none) ∧
    (PaymentRepository.get_by_id scenRef2.2 ("p1")).map Payment.status
      = some PaymentStatus.partially_refunded ∧
    scenRef3.1 = Except.ok (RefundResponse.mk true (some ("re_u4")) 10 none)
      := by
  decide

/-- Claim C1 — violation exhibited: against the captured payment of 100.00,
two refund requests of 60.00 each both succeed (the second is an
over-refund of the remaining 40.00 yet reaches the gateway, as the call
log shows), and the refund rows attached to the payment sum to 120.00,
exceeding the original amount: `refund_payment` checks no cumulative
refund invariant before calling the gateway. -/
theorem over_refund_accepted :
    overRef1.1 = Except.ok (RefundResponse.mk true (some ("re_u")) 60 none) ∧
    overRef2.1 = Except.ok (RefundResponse.mk true (some ("re_u2")) 60 none) ∧
    overRef2.2.refunds.map RefundRecord.amount = [60, 60] ∧
    overRef2.2.gwLog = [GwCall.refund, GwCall.refund] ∧
    (overRef2.2.refunds.map RefundRecord.amount).sum
      > capturedPayment.amount := by
  refine ⟨by decide, by decide, by decide, by decide, ?_⟩
  rw [show overRef2.2.refunds.map RefundRecord.amount = [60, 60] by decide]
  show (100 : ℚ) < [(60 : ℚ), 60].sum
  norm_num

/-- Claim C4 — what the code actually does for an unknown payment id: the
`UPDATE ... WHERE id = pid` of `update_status` matches no row, the
payments table is unchanged, and the operation returns `None` instead of
failing with a NotFound error. -/
theorem update_status_unknown_id_returns_none (st : SysState) (pid : String)
    (s : PaymentStatus) (h : ∀ p ∈ st.payments, p.id ≠ pid) :
    (PaymentRepository.update_status st pid s).1 = none ∧
    (PaymentRepository.update_status st pid s).2.payments = st.payments := by
  unfold PaymentRepository.update_status
  simp only [SysState.tick]
  rw [updateWhere_no_match _ _ _ h]
  exact ⟨find?_id_none _ _ h, rfl⟩

/-- Witness for `update_status_unknown_id_returns_none` at the empty
store and id "nope". -/
theorem update_status_unknown_id_witness :
    (∀ p ∈ emptyState.payments, p.id ≠ "nope") ∧
    (PaymentRepository.update_status emptyState ("nope")
      PaymentStatus.captured).1 = none ∧
    (PaymentRepository.update_status emptyState ("nope")
      PaymentStatus.captured).2.payments = emptyState.payments :=
  ⟨by simp [emptyState],
   update_status_unknown_id_returns_none emptyState ("nope")
     PaymentStatus.captured (by simp [emptyState])⟩

/-- Claim C7 — a refund request against a payment whose status is neither
CAPTURED nor PARTIALLY_REFUNDED is answered with a structured domain
rejection and the state (gateway call log included) is exactly the state
before the request: the gateway's refund is never invoked. -/
theorem refund_rejected_without_gateway (gw : GwBehavior)
    (sendOk : EventPublisher.SendBehavior) (st : SysState)
    (req : RefundRequest) (p : Payment)
    (hfind : PaymentRepository.get_by_transaction_id st req.transaction_id
      = some p)
    (hc : p.status ≠ PaymentStatus.captured)
    (hpr : p.status ≠ PaymentStatus.partially_refunded) :
    PaymentService.refund_payment (realCollab gw sendOk) st req =
      (Except.ok (RefundResponse.mk false none req.amount
        (some ("Payment in status " ++ statusStr p.status
          ++ " cannot be refunded"))), st) := by
  unfold PaymentService.refund_payment realCollab
  simp only [hfind]
  rw [if_neg (by simp [hc, hpr])]

/-- Witness for `refund_rejected_without_gateway`: a PENDING payment. -/
theorem refund_rejected_witness :
    PaymentService.refund_payment (realCollab gwAlwaysOk (fun _ => true))
      { capturedState with payments :=
          [{ capturedPayment with status := PaymentStatus.pending }] }
      ⟨"tx1", 25, none⟩ =
      (Except.ok (RefundResponse.mk false none 25
        (some ("Payment in status pending cannot be refunded"))),
       { capturedState with payments :=
          [{ capturedPayment with status := PaymentStatus.pending }] }) :=
  refund_rejected_without_gateway gwAlwaysOk (fun _ => true) _ _
    { capturedPayment with status := PaymentStatus.pending }
    (by decide) (by decide) (by decide)

/-- Claim C8 — when the gateway's refund call fails, `refund_payment`
returns a structured failure carrying the gateway's error message and
the store (payments, refund rows) and the event stream are exactly as
before the call. -/
theorem refund_gateway_failure_no_state_change (gw : GwBehavior)
    (sendOk : EventPublisher.SendBehavior) (st : SysState)
    (req : RefundRequest) (p : Payment)
    (hfind : PaymentRepository.get_by_transaction_id st req.transaction_id
      = some p)
    (hst : p.status = PaymentStatus.captured ∨
      p.status = PaymentStatus.partially_refunded)
    (hgw : gw.succeed st.gwCtr = false) :
    ∃ st', PaymentService.refund_payment (realCollab gw sendOk) st req =
      (Except.ok (RefundResponse.mk false none req.amount
        (some ("Failed to process refund"))), st') ∧
      st'.payments = st.payments ∧ st'.refunds = st.refunds ∧
      st'.attempts = st.attempts := by
  unfold PaymentService.refund_payment realCollab
  simp only [hfind]
  rw [if_pos hst]
  unfold PaymentService.refund_payment_try PaymentProcessor.refund_payment
    PaymentProcessor.shouldSucceed
  simp only [hgw]
  exact ⟨_, rfl, rfl, rfl, rfl⟩

/-- Witness for `refund_gateway_failure_no_state_change`: the captured
100.00 payment with an always-failing gateway. -/
theorem refund_gateway_failure_witness :
    ∃ st', PaymentService.refund_payment
      (realCollab ⟨fun _ => false, fun _ => 0⟩ (fun _ => true))
      capturedState ⟨"tx1", 30, none⟩ =
      (Except.ok (RefundResponse.mk false none 30
        (some ("Failed to process refund"))), st') ∧
      st'.payments = capturedState.payments ∧
      st'.refunds = capturedState.refunds ∧
      st'.attempts = capturedState.attempts :=
  refund_gateway_failure_no_state_change ⟨fun _ => false, fun _ => 0⟩
    (fun _ => true) capturedState ⟨"tx1", 30, none⟩ capturedPayment
    (by decide) (Or.inl (by decide)) (by decide)

theorem publish_event_state (sendOk : EventPublisher.SendBehavior)
    (st : SysState) (et pid : String) (d : EventData) :
    EventPublisher.publish_event sendOk st et pid d =
      { st with attempts := st.attempts ++ [⟨et, pid, st.clock, d⟩],
                pubCtr := st.pubCtr + 1, clock := st.clock + 1 } := by
  unfold EventPublisher.publish_event EventPublisher.publishEventBody
    SysState.tick
  cases h : sendOk st.pubCtr <;> simp [h]

/-- Claim C9 — a failing `producer.send` makes the publisher's `try` body
raise, but `_publish_event` still returns the post-attempt state (the
exception is swallowed), the store tables are untouched by publishing,
and the orchestrator-facing publish operations always return without an
exception. -/
theorem publish_failure_swallowed (sendOk : EventPublisher.SendBehavior)
    (st : SysState) (et pid : String) (d : EventData)
    (h : sendOk st.pubCtr = false) :
    (EventPublisher.publishEventBody sendOk st et pid d).1
      = Except.error ⟨"KafkaSendError"⟩ ∧
    EventPublisher.publish_event sendOk st et pid d
      = (EventPublisher.publishEventBody sendOk st et pid d).2 ∧
    (EventPublisher.publish_event sendOk st et pid d).payments
      = st.payments ∧
    (EventPublisher.publish_event sendOk st et pid d).refunds
      = st.refunds ∧
    (∀ gw p, (realCollab gw sendOk).publish_successful st p =
      (Except.ok (), EventPublisher.publish_payment_successful sendOk st p)) ∧
    (∀ gw p em, (realCollab gw sendOk).publish_failed st p em =
      (Except.ok (), EventPublisher.publish_payment_failed sendOk st p em)) ∧
    (∀ gw p rid a, (realCollab gw sendOk).publish_refunded st p rid a =
      (Except.ok (), EventPublisher.publish_payment_refunded sendOk st p rid a))
    := by
  refine ⟨?_, ?_, ?_, ?_, fun gw p => rfl, fun gw p em => rfl,
    fun gw p rid a => rfl⟩
  · unfold EventPublisher.publishEventBody SysState.tick
    simp [h]
  · unfold EventPublisher.publish_event EventPublisher.publishEventBody
      SysState.tick
    simp [h]
  · rw [publish_event_state]
  · rw [publish_event_state]

/-- Witness for `publish_failure_swallowed`: an always-failing send at
the empty store. -/
theorem publish_failure_swallowed_witness :
    ((fun _ => false) : EventPublisher.SendBehavior) emptyState.pubCtr
        = false ∧
    (EventPublisher.publishEventBody (fun _ => false) emptyState
      "payment.successful" "p1"
      (EventData.failedData ("o") 1 Currency.usd PaymentMethod.paypal ("e"))).1
      = Except.error ⟨"KafkaSendError"⟩ :=
  ⟨rfl, (publish_failure_swallowed (fun _ => false) emptyState
    "payment.successful" "p1"
    (EventData.failedData ("o") 1 Currency.usd PaymentMethod.paypal ("e"))
    rfl).1⟩

theorem refund_gw_ok (gw : GwBehavior) (st : SysState) (tx : String)
    (a : ℚ) (rsn : Option String) (h : gw.succeed st.gwCtr = true) :
    PaymentProcessor.refund_payment gw st tx a rsn =
      (RefundResult.ok ("re_" ++ uuidStr st.uuidCtr),
       { st with gwLog := st.gwLog ++ [GwCall.refund],
                 uuidCtr := st.uuidCtr + 1, gwCtr := st.gwCtr + 1,
                 clock := st.clock + 1 }) := by
  unfold PaymentProcessor.refund_payment PaymentProcessor.shouldSucceed
    SysState.freshUuid SysState.tick
  simp [h]

theorem refund_gw_fail (gw : GwBehavior) (st : SysState) (tx : String)
    (a : ℚ) (rsn : Option String) (h : gw.succeed st.gwCtr = false) :
    PaymentProcessor.refund_payment gw st tx a rsn =
      (RefundResult.fail ("refund_failed") "Failed to process refund",
       { st with gwLog := st.gwLog ++ [GwCall.refund],
                 gwCtr := st.gwCtr + 1 }) := by
  unfold PaymentProcessor.refund_payment PaymentProcessor.shouldSucceed
    SysState.freshUuid SysState.tick
  simp [h]

theorem update_status_eq (st : SysState) (pid : String)
    (s : PaymentStatus) :
    PaymentRepository.update_status st pid s =
      (let ps := PaymentRepository.updateWhere pid (fun p => { p with status := s, updated_at := st.clock }) st.payments
       (ps.find? fun p => p.id == pid,
        { st with payments := ps, clock := st.clock + 1 })) := rfl

theorem find?_updateWhere_statusUpd (ps : List Payment) (pid : String)
    (s : PaymentStatus) (t : Nat) :
    (PaymentRepository.updateWhere pid
        (fun q => { q with status := s, updated_at := t }) ps).find?
        (fun q => q.id == pid)
      = (ps.find? fun q => q.id == pid).map
          (fun q => { q with status := s, updated_at := t }) :=
  find?_updateWhere ps pid _ fun _ => rfl

theorem add_refund_eq (st : SysState) (pid rid : String) (a : ℚ)
    (rsn : Option String) :
    PaymentRepository.add_refund_record st pid rid a rsn =
      { st with
          refunds := st.refunds ++ [⟨uuidStr st.uuidCtr, pid, rid, a, rsn, st.clock⟩],
          uuidCtr := st.uuidCtr + 1, clock := st.clock + 1 } := rfl

/-- Claim C3 — a refund against a CAPTURED payment whose gateway refund
succeeds: the response is a success carrying the refund id and amount;
if the requested amount is below the original amount the stored status
becomes PARTIALLY_REFUNDED, if it equals the original amount it becomes
REFUNDED; exactly one refund row (payment id, refund id, amount, reason)
is appended and exactly one `payment.refunded` event carrying the refund
id, the refund amount and the original amount is published. -/
theorem refund_success_status_row_event (gw : GwBehavior)
    (sendOk : EventPublisher.SendBehavior) (st : SysState)
    (req : RefundRequest) (p : Payment)
    (hfind : PaymentRepository.get_by_transaction_id st req.transaction_id
      = some p)
    (hst : p.status = PaymentStatus.captured)
    (hgw : gw.succeed st.gwCtr = true) :
    ∃ rid st',
      PaymentService.refund_payment (realCollab gw sendOk) st req =
        (Except.ok (RefundResponse.mk true (some rid) req.amount none),
         st') ∧
      (req.amount < p.amount →
        (PaymentRepository.get_by_id st' p.id).map Payment.status
          = some PaymentStatus.partially_refunded) ∧
      (req.amount = p.amount →
        (PaymentRepository.get_by_id st' p.id).map Payment.status
          = some PaymentStatus.refunded) ∧
      (∃ rrow : RefundRecord, st'.refunds = st.refunds ++ [rrow] ∧
        rrow.payment_id = p.id ∧ rrow.refund_id = rid ∧
        rrow.amount = req.amount ∧ rrow.reason = req.reason) ∧
      (∃ t, st'.attempts = st.attempts ++
        [⟨"payment.refunded", p.id, t,
          EventData.refundedData p.order_id rid req.amount p.amount
            p.currency⟩]) := by
  have hmem : p ∈ st.payments := List.mem_of_find?_eq_some hfind
  have hq : (st.payments.find? fun x => x.id == p.id).isSome :=
    List.find?_isSome.mpr ⟨p, hmem, by simp⟩
  obtain ⟨q, hq⟩ := Option.isSome_iff_exists.mp hq
  unfold PaymentService.refund_payment
  simp only [realCollab, hfind, hst]
  rw [if_pos (Or.inl trivial)]
  unfold PaymentService.refund_payment_try
  simp only [realCollab,
    refund_gw_ok gw st req.transaction_id req.amount req.reason hgw,
    update_status_eq, add_refund_eq,
    EventPublisher.publish_payment_refunded, publish_event_state]
  refine ⟨_, _, rfl, ?_, ?_, ⟨_, rfl, rfl, rfl, rfl, rfl⟩, ⟨_, rfl⟩⟩
  · intro hlt
    simp only [PaymentRepository.get_by_id, find?_updateWhere_statusUpd, hq]
    simp [if_neg (not_le.mpr hlt)]
  · intro heq
    simp only [PaymentRepository.get_by_id, find?_updateWhere_statusUpd, hq]
    simp [if_pos (le_of_eq heq.symm)]

theorem create_payment_eq (st : SysState) (o : String) (a : ℚ)
    (c : Currency) (m : PaymentMethod) :
    PaymentRepository.create_payment st o a c m =
      (let p : Payment :=
         { id := uuidStr st.uuidCtr, order_id := o, amount := a,
           currency := c, payment_method := m,
           status := PaymentStatus.pending, created_at := st.clock,
           updated_at := st.clock + 1 }
       (p, { st with payments := st.payments ++ [p],
                     uuidCtr := st.uuidCtr + 1, clock := st.clock + 2 })) := rfl

theorem authorize_ok_eq (gw : GwBehavior) (st : SysState) (a : ℚ)
    (m : PaymentMethod) (h : gw.succeed st.gwCtr = true) :
    PaymentProcessor.authorize_payment gw st a m =
      (ProcResult.ok ("txn_" ++ uuidStr (st.uuidCtr + 1))
        ("pi_" ++ uuidStr st.uuidCtr),
       { st with gwLog := st.gwLog ++ [GwCall.authorize],
                 uuidCtr := st.uuidCtr + 2, gwCtr := st.gwCtr + 1,
                 clock := st.clock + 1 }) := by
  unfold PaymentProcessor.authorize_payment PaymentProcessor.shouldSucceed
    SysState.freshUuid SysState.tick
  simp [h]

theorem capture_ok_eq (gw : GwBehavior) (st : SysState) (pi : String)
    (a : ℚ) (h : gw.succeed st.gwCtr = true) :
    PaymentProcessor.capture_payment gw st pi a =
      (ProcResult.ok ("txn_" ++ uuidStr st.uuidCtr) pi,
       { st with gwLog := st.gwLog ++ [GwCall.capture],
                 uuidCtr := st.uuidCtr + 1, gwCtr := st.gwCtr + 1,
                 clock := st.clock + 1 }) := by
  unfold PaymentProcessor.capture_payment PaymentProcessor.shouldSucceed
    SysState.freshUuid SysState.tick
  simp [h]

theorem process_gw_allok_eq (gw : GwBehavior) (st : SysState) (a : ℚ)
    (m : PaymentMethod) (h : ∀ n, gw.succeed n = true) :
    PaymentProcessor.process_payment gw st a m =
      (ProcResult.ok ("txn_" ++ uuidStr (st.uuidCtr + 2))
        ("pi_" ++ uuidStr st.uuidCtr),
       { st with gwLog := st.gwLog ++ [GwCall.authorize, GwCall.capture],
                 uuidCtr := st.uuidCtr + 3, gwCtr := st.gwCtr + 2,
                 clock := st.clock + 2 }) := by
  unfold PaymentProcessor.process_payment
  simp only [authorize_ok_eq gw st a m (h st.gwCtr)]
  rw [capture_ok_eq gw _ _ a (h _)]
  simp

theorem authorize_fail_eq (gw : GwBehavior) (st : SysState) (a : ℚ)
    (m : PaymentMethod) (h : gw.succeed st.gwCtr = false) :
    PaymentProcessor.authorize_payment gw st a m =
      (let code := PaymentProcessor.authErrorCodes.getD (gw.errPick st.gwCtr % 3) "card_declined"
       (ProcResult.fail code (PaymentProcessor.get_error_message code),
        { st with gwLog := st.gwLog ++ [GwCall.authorize],
                  gwCtr := st.gwCtr + 1 })) := by
  unfold PaymentProcessor.authorize_payment PaymentProcessor.shouldSucceed
    SysState.freshUuid SysState.tick
  simp [h]

theorem process_gw_fail_eq (gw : GwBehavior) (st : SysState) (a : ℚ)
    (m : PaymentMethod) (h : gw.succeed st.gwCtr = false) :
    PaymentProcessor.process_payment gw st a m =
      (let code := PaymentProcessor.authErrorCodes.getD (gw.errPick st.gwCtr % 3) "card_declined"
       (ProcResult.fail code (PaymentProcessor.get_error_message code),
        { st with gwLog := st.gwLog ++ [GwCall.authorize],
                  gwCtr := st.gwCtr + 1 })) := by
  unfold PaymentProcessor.process_payment
  rw [authorize_fail_eq gw st a m h]

theorem update_payment_success_eq (st : SysState) (pid tx pi : String)
    (pr : ProcResult) :
    PaymentRepository.update_payment_success st pid tx pi pr =
      (let f : Payment → Payment := fun p => { p with
         status := PaymentStatus.captured, transaction_id := some tx,
         payment_intent_id := some pi, provider_response := some pr,
         authorized_at := some st.clock, captured_at := some st.clock,
         updated_at := st.clock }
       let ps := PaymentRepository.updateWhere pid f st.payments
       (ps.find? fun p => p.id == pid,
        { st with payments := ps, clock := st.clock + 1 })) := rfl

theorem update_payment_failure_eq (st : SysState) (pid em : String)
    (pr : Option ProcResult) :
    PaymentRepository.update_payment_failure st pid em pr =
      (let f : Payment → Payment := fun p => { p with
         status := PaymentStatus.failed, error_message := some em,
         provider_response := pr, updated_at := st.clock }
       let ps := PaymentRepository.updateWhere pid f st.payments
       (ps.find? fun p => p.id == pid,
        { st with payments := ps, clock := st.clock + 1 })) := rfl

theorem updateWhere_append (pid : String) (f : Payment → Payment)
    (l1 l2 : List Payment) :
    PaymentRepository.updateWhere pid f (l1 ++ l2)
      = PaymentRepository.updateWhere pid f l1
        ++ PaymentRepository.updateWhere pid f l2 :=
  List.map_append _ _ _

theorem updateWhere_singleton (pid : String) (f : Payment → Payment)
    (p : Payment) :
    PaymentRepository.updateWhere pid f [p]
      = [if p.id = pid then f p else p] := rfl

theorem updateWhere_skip (ps : List Payment) (pid : String)
    (h : ∀ p ∈ ps, p.id ≠ pid) (f : Payment → Payment) :
    PaymentRepository.updateWhere pid f ps = ps :=
  updateWhere_no_match ps pid f h

theorem find?_id_skip (ps : List Payment) (pid : String)
    (h : ∀ p ∈ ps, p.id ≠ pid) :
    ps.find? (fun p => p.id == pid) = none :=
  find?_id_none ps pid h

/-- Witness for `refund_success_status_row_event`: a 40.00 refund against
the captured 100.00 payment. -/
theorem refund_success_witness :
    ∃ rid st',
      PaymentService.refund_payment (realCollab gwAlwaysOk (fun _ => true))
        capturedState ⟨"tx1", 40, none⟩ =
        (Except.ok (RefundResponse.mk true (some rid) 40 none), st') := by
  obtain ⟨rid, st', h1, -⟩ := refund_success_status_row_event gwAlwaysOk
    (fun _ => true) capturedState ⟨"tx1", 40, none⟩ capturedPayment
    (by decide) (by decide) (by decide)
  exact ⟨rid, st', h1⟩


/-- Claim C6 — processing a valid request with an always-successful gateway
from any store satisfying the uuid-freshness invariant: the response is
a success with status CAPTURED, the returned transaction and intent ids
are non-empty and differ from every transaction/intent id already
stored, the stored row is CAPTURED with `authorized_at = captured_at`,
exactly one `payment.successful` publication is attempted, and the
freshness invariant is preserved. -/
theorem process_success_captured_unique (gw : GwBehavior)
    (sendOk : EventPublisher.SendBehavior) (st : SysState)
    (req : ProcessPaymentRequest)
    (hgw : ∀ n, gw.succeed n = true)
    (hinv : idsBound st) :
    ∃ pid tx pi st' t,
      PaymentService.process_payment (realCollab gw sendOk) st req =
        (Except.ok (PaymentResponse.mk true (some tx) (some pi)
          PaymentStatus.captured none), st') ∧
      tx ≠ "" ∧ pi ≠ "" ∧
      (∀ q ∈ st.payments, q.transaction_id ≠ some tx) ∧
      (∀ q ∈ st.payments, q.payment_intent_id ≠ some pi) ∧
      (∃ prow, PaymentRepository.get_by_id st' pid = some prow ∧
        prow.status = PaymentStatus.captured ∧
        prow.transaction_id = some tx ∧
        prow.payment_intent_id = some pi ∧
        prow.authorized_at = some t ∧ prow.captured_at = some t) ∧
      (∃ t2, st'.attempts = st.attempts ++
        [⟨"payment.successful", pid, t2,
          EventData.successData req.order_id req.amount req.currency
            req.payment_method (some tx) (some pi)⟩]) ∧
      idsBound st' := by
  have hids : ∀ q ∈ st.payments, q.id ≠ uuidStr st.uuidCtr := by
    intro q hq he
    obtain ⟨⟨k, hk, hid⟩, -, -⟩ := hinv q hq
    rw [hid] at he
    exact absurd (uuidStr_injective he) (Nat.ne_of_lt hk)
  have hrun : PaymentService.process_payment (realCollab gw sendOk) st req =
      (Except.ok (PaymentResponse.mk true
          (some ("txn_" ++ uuidStr (st.uuidCtr + 3)))
          (some ("pi_" ++ uuidStr (st.uuidCtr + 1)))
          PaymentStatus.captured none),
       { payments := st.payments ++
           [{ id := uuidStr st.uuidCtr, order_id := req.order_id,
              amount := req.amount, currency := req.currency,
              payment_method := req.payment_method,
              status := PaymentStatus.captured,
              transaction_id := some ("txn_" ++ uuidStr (st.uuidCtr + 3)),
              payment_intent_id := some ("pi_" ++ uuidStr (st.uuidCtr + 1)),
              provider_response := some (ProcResult.ok
                ("txn_" ++ uuidStr (st.uuidCtr + 3))
                ("pi_" ++ uuidStr (st.uuidCtr + 1))),
              error_message := none, created_at := st.clock,
              updated_at := st.clock + 5,
              authorized_at := some (st.clock + 5),
              captured_at := some (st.clock + 5), refunded_at := none }],
         refunds := st.refunds,
         attempts := st.attempts ++
           [⟨"payment.successful", uuidStr st.uuidCtr, st.clock + 6,
             EventData.successData req.order_id req.amount req.currency
               req.payment_method
               (some ("txn_" ++ uuidStr (st.uuidCtr + 3)))
               (some ("pi_" ++ uuidStr (st.uuidCtr + 1)))⟩],
         gwLog := st.gwLog ++ [GwCall.authorize, GwCall.capture],
         uuidCtr := st.uuidCtr + 4, gwCtr := st.gwCtr + 2,
         pubCtr := st.pubCtr + 1, clock := st.clock + 7 }) := by
    unfold PaymentService.process_payment
    simp only [realCollab, create_payment_eq]
    unfold PaymentService.process_payment_try
    simp only [realCollab, update_status_eq, updateWhere_append,
      updateWhere_singleton, eq_self_iff_true, if_true,
      updateWhere_skip st.payments (uuidStr st.uuidCtr) hids]
    rw [process_gw_allok_eq gw _ req.amount req.payment_method hgw]
    simp only [update_payment_success_eq, updateWhere_append,
      updateWhere_singleton, eq_self_iff_true, if_true,
      updateWhere_skip st.payments (uuidStr st.uuidCtr) hids,
      List.find?_append, find?_id_skip st.payments (uuidStr st.uuidCtr) hids,
      EventPublisher.publish_payment_successful, publish_event_state]
    simp
  refine ⟨uuidStr st.uuidCtr, "txn_" ++ uuidStr (st.uuidCtr + 3),
    "pi_" ++ uuidStr (st.uuidCtr + 1), _, st.clock + 5, hrun,
    prefixed_uuid_ne_empty ("txn_") _, prefixed_uuid_ne_empty ("pi_") _,
    ?_, ?_, ?_, ⟨st.clock + 6, rfl⟩, ?_⟩
  · intro q hq he
    obtain ⟨-, htx, -⟩ := hinv q hq
    obtain ⟨k, hk, hkeq⟩ := htx _ he
    exact absurd (prefixed_uuid_injective ("txn_") hkeq.symm) (by omega)
  · intro q hq he
    obtain ⟨-, -, hpi⟩ := hinv q hq
    obtain ⟨k, hk, hkeq⟩ := hpi _ he
    exact absurd (prefixed_uuid_injective ("pi_") hkeq.symm) (by omega)
  · unfold PaymentRepository.get_by_id
    simp only [List.find?_append,
      find?_id_skip st.payments (uuidStr st.uuidCtr) hids]
    simp
  · intro p hp
    simp only [List.mem_append, List.mem_singleton] at hp
    rcases hp with hp | hp
    · obtain ⟨⟨k, hk, hid⟩, htx, hpi⟩ := hinv p hp
      refine ⟨⟨k, by simp; omega, hid⟩, fun tx he => ?_, fun pi he => ?_⟩
      · obtain ⟨k2, hk2, he2⟩ := htx tx he
        exact ⟨k2, by simp; omega, he2⟩
      · obtain ⟨k2, hk2, he2⟩ := hpi pi he
        exact ⟨k2, by simp; omega, he2⟩
    · subst hp
      refine ⟨⟨st.uuidCtr, by simp, rfl⟩, fun tx he => ?_, fun pi he => ?_⟩
      · exact ⟨st.uuidCtr + 3, by simp, by injection he with h2; rw [← h2]⟩
      · exact ⟨st.uuidCtr + 1, by simp, by injection he with h2; rw [← h2]⟩

/-- Witness for `process_success_captured_unique`: fresh store, the
scenario request (order "ORD-1", 100.00 USD, credit card). -/
theorem process_success_witness :
    ∃ tx pi st',
      PaymentService.process_payment (realCollab gwAlwaysOk (fun _ => true))
        emptyState ⟨"ORD-1", 100, Currency.usd, PaymentMethod.credit_card⟩ =
        (Except.ok (PaymentResponse.mk true (some tx) (some pi)
          PaymentStatus.captured none), st') := by
  obtain ⟨pid, tx, pi, st', t, h1, -⟩ := process_success_captured_unique
    gwAlwaysOk (fun _ => true) emptyState
    ⟨"ORD-1", 100, Currency.usd, PaymentMethod.credit_card⟩
    (fun _ => rfl) (by simp [idsBound, emptyState])
  exact ⟨tx, pi, st', h1⟩

theorem noRefundedAt_updateWhere (pid : String) (f : Payment → Payment)
    (hf : ∀ p : Payment, (f p).refunded_at = p.refunded_at)
    (l : List Payment) (h : ∀ p ∈ l, p.refunded_at = none) :
    ∀ p ∈ PaymentRepository.updateWhere pid f l, p.refunded_at = none := by
  intro p hp
  simp only [PaymentRepository.updateWhere, List.mem_map] at hp
  obtain ⟨q, hq, rfl⟩ := hp
  by_cases hqe : q.id = pid <;> simp [hqe, hf, h q hq]

theorem capture_fail_eq (gw : GwBehavior) (st : SysState) (pi : String)
    (a : ℚ) (h : gw.succeed st.gwCtr = false) :
    PaymentProcessor.capture_payment gw st pi a =
      (ProcResult.fail ("capture_failed") "Failed to capture payment",
       { st with gwLog := st.gwLog ++ [GwCall.capture],
                 gwCtr := st.gwCtr + 1 }) := by
  unfold PaymentProcessor.capture_payment PaymentProcessor.shouldSucceed
    SysState.freshUuid SysState.tick
  simp [h]

theorem processor_process_payments (gw : GwBehavior) (st : SysState)
    (a : ℚ) (m : PaymentMethod) :
    (PaymentProcessor.process_payment gw st a m).2.payments = st.payments := by
  cases h1 : gw.succeed st.gwCtr
  · rw [process_gw_fail_eq gw st a m h1]
  · unfold PaymentProcessor.process_payment
    simp only [authorize_ok_eq gw st a m h1]
    cases h2 : gw.succeed (st.gwCtr + 1)
    · rw [capture_fail_eq gw _ _ a (by simpa using h2)]
    · rw [capture_ok_eq gw _ _ a (by simpa using h2)]

theorem processor_refund_payments (gw : GwBehavior) (st : SysState)
    (tx : String) (a : ℚ) (rsn : Option String) :
    (PaymentProcessor.refund_payment gw st tx a rsn).2.payments
      = st.payments := by
  cases h1 : gw.succeed st.gwCtr
  · rw [refund_gw_fail gw st tx a rsn h1]
  · rw [refund_gw_ok gw st tx a rsn h1]

theorem publish_payments (sendOk : EventPublisher.SendBehavior)
    (st : SysState) (et pid : String) (d : EventData) :
    (EventPublisher.publish_event sendOk st et pid d).payments
      = st.payments := by
  rw [publish_event_state]

theorem noRefundedAt_process (gw : GwBehavior)
    (sendOk : EventPublisher.SendBehavior)
    (st : SysState) (req : ProcessPaymentRequest) (h : noRefundedAt st) :
    noRefundedAt
      (PaymentService.process_payment (realCollab gw sendOk) st req).2 := by
  have HC : ∀ q ∈ ((PaymentRepository.create_payment st req.order_id
      req.amount req.currency req.payment_method).2).payments,
      q.refunded_at = none := by
    simp only [create_payment_eq]
    intro q hq
    rcases List.mem_append.mp hq with hq | hq
    · exact h q hq
    · simp only [List.mem_singleton] at hq
      subst hq
      rfl
  have HU : ∀ q ∈ ((PaymentRepository.update_status
      (PaymentRepository.create_payment st req.order_id req.amount
        req.currency req.payment_method).2
      (PaymentRepository.create_payment st req.order_id req.amount
        req.currency req.payment_method).1.id
      PaymentStatus.processing).2).payments, q.refunded_at = none := by
    simp only [update_status_eq]
    apply noRefundedAt_updateWhere
    · exact fun p => rfl
    · exact HC
  unfold PaymentService.process_payment PaymentService.process_payment_try
  simp only [realCollab]
  split
  · rename_i resp st2 heq
    split at heq
    · simp at heq
    · rename_i tx pi st2a heq2
      injection heq2 with heq2a heq2b
      injection heq2a with heq2a
      split at heq
      · simp at heq
      · simp at heq
      · rename_i payment2 st3 heq3
        injection heq3 with heq3a heq3b
        injection heq3a with heq3a
        injection heq with heqa heqb
        subst heqb
        subst heq3b
        unfold EventPublisher.publish_payment_successful
        intro q hq
        rw [publish_payments] at hq
        revert q hq
        subst heq2b
        simp only [update_payment_success_eq]
        apply noRefundedAt_updateWhere
        · exact fun p => rfl
        · intro q hq
          rw [processor_process_payments] at hq
          exact HU q hq
    · rename_i code msg st2a heq2
      injection heq2 with heq2a heq2b
      injection heq2a with heq2a
      split at heq
      · simp at heq
      · simp at heq
      · rename_i payment2 st3 heq3
        injection heq3 with heq3a heq3b
        injection heq3a with heq3a
        injection heq with heqa heqb
        subst heqb
        subst heq3b
        unfold EventPublisher.publish_payment_failed
        intro q hq
        rw [publish_payments] at hq
        revert q hq
        subst heq2b
        simp only [update_payment_failure_eq]
        apply noRefundedAt_updateWhere
        · exact fun p => rfl
        · intro q hq
          rw [processor_process_payments] at hq
          exact HU q hq
  · rename_i e st2 heq
    split at heq
    · rename_i e2 st2a heq2
      simp at heq2
    · rename_i tx pi st2a heq2
      injection heq2 with heq2a heq2b
      split at heq
      · rename_i e2 st3 heq3
        simp at heq3
      · rename_i st3 heq3
        obtain ⟨heq3a, heq3b⟩ := Prod.mk.injEq .. ▸ heq3
        injection heq with heqa heqb
        subst heqb
        subst heq3b
        simp only [update_payment_failure_eq]
        apply noRefundedAt_updateWhere
        · exact fun p => rfl
        · subst heq2b
          simp only [update_payment_success_eq]
          apply noRefundedAt_updateWhere
          · exact fun p => rfl
          · intro q hq
            rw [processor_process_payments] at hq
            exact HU q hq
      · rename_i payment2 st3 heq3
        simp at heq
    · rename_i code msg st2a heq2
      injection heq2 with heq2a heq2b
      split at heq
      · rename_i e2 st3 heq3
        simp at heq3
      · rename_i st3 heq3
        obtain ⟨heq3a, heq3b⟩ := Prod.mk.injEq .. ▸ heq3
        injection heq with heqa heqb
        subst heqb
        subst heq3b
        simp only [update_payment_failure_eq]
        apply noRefundedAt_updateWhere
        · exact fun p => rfl
        · subst heq2b
          apply noRefundedAt_updateWhere
          · exact fun p => rfl
          · intro q hq
            rw [processor_process_payments] at hq
            exact HU q hq
      · rename_i payment2 st3 heq3
        simp at heq

theorem eraseStatusUpd_updateWhere (pid : String) (s : PaymentStatus)
    (t : Nat) (l : List Payment) :
    (PaymentRepository.updateWhere pid
        (fun q => { q with status := s, updated_at := t }) l).map
        eraseStatusUpd = l.map eraseStatusUpd := by
  simp only [PaymentRepository.updateWhere, List.map_map]
  apply List.map_congr_left
  intro q hq
  by_cases hqe : q.id = pid <;> simp [hqe, eraseStatusUpd]

theorem refund_frame (gw : GwBehavior) (sendOk : EventPublisher.SendBehavior)
    (st : SysState) (req : RefundRequest) :
    ((PaymentService.refund_payment (realCollab gw sendOk)
        st req).2.payments).map eraseStatusUpd
      = st.payments.map eraseStatusUpd := by
  unfold PaymentService.refund_payment PaymentService.refund_payment_try
  simp only [realCollab]
  split
  case h_1 e st1 heq =>
    simp at heq
  case h_2 st1 heq =>
    obtain ⟨heqa, heqb⟩ := Prod.mk.injEq .. ▸ heq
    subst heqb
    rfl
  case h_3 payment st1 heq =>
    obtain ⟨heqa, heqb⟩ := Prod.mk.injEq .. ▸ heq
    subst heqb
    split
    case isTrue hg =>
      split
      case h_1 resp st2 heq2 =>
        split at heq2
        · rename_i e st3 heq3
          simp at heq3
        · rename_i c3 m3 st3 heq3
          obtain ⟨heq3a, heq3b⟩ := Prod.mk.injEq .. ▸ heq3
          obtain ⟨heq2a, heq2b⟩ := Prod.mk.injEq .. ▸ heq2
          subst heq2b
          subst heq3b
          rw [processor_refund_payments]
        · rename_i rid st3 heq3
          obtain ⟨heq3a, heq3b⟩ := Prod.mk.injEq .. ▸ heq3
          obtain ⟨heq2a, heq2b⟩ := Prod.mk.injEq .. ▸ heq2
          subst heq2b
          subst heq3b
          unfold EventPublisher.publish_payment_refunded
          rw [publish_payments]
          simp only [add_refund_eq, update_status_eq]
          rw [eraseStatusUpd_updateWhere]
          rw [processor_refund_payments]
      case h_2 e st2 heq2 =>
        split at heq2
        · rename_i e2 st3 heq3
          simp at heq3
        · rename_i c3 m3 st3 heq3
          simp at heq2
        · rename_i rid st3 heq3
          simp at heq2
    case isFalse hg => rfl

theorem noRefundedAt_of_erase_eq (l1 l2 : List Payment)
    (he : l2.map eraseStatusUpd = l1.map eraseStatusUpd)
    (h : ∀ p ∈ l1, p.refunded_at = none) :
    ∀ p ∈ l2, p.refunded_at = none := by
  intro p hp
  have hmem : eraseStatusUpd p ∈ l1.map eraseStatusUpd :=
    he ▸ List.mem_map_of_mem _ hp
  obtain ⟨q, hq, he2⟩ := List.mem_map.mp hmem
  have h3 : q.refunded_at = p.refunded_at := by
    have h4 := congrArg Payment.refunded_at he2
    simpa [eraseStatusUpd] using h4
  rw [← h3]
  exact h q hq

theorem noRefundedAt_refund (gw : GwBehavior)
    (sendOk : EventPublisher.SendBehavior)
    (st : SysState) (req : RefundRequest) (h : noRefundedAt st) :
    noRefundedAt
      (PaymentService.refund_payment (realCollab gw sendOk) st req).2 :=
  noRefundedAt_of_erase_eq st.payments _ (refund_frame gw sendOk st req) h

/-- Claim C10 — the `refunded_at` field is never assigned: starting from any
store in which no payment has `refunded_at` set, it stays unset after any
sequence of process/refund requests (any gateway and publisher
behaviours); the refund path changes payment rows only in their `status`
and `updated_at` fields; and the capture-success store update is the one
that sets `authorized_at` and `captured_at` (to the same instant),
leaving `refunded_at` exactly as it was. -/
theorem refunded_at_never_assigned :
    (∀ st : SysState, noRefundedAt st → ∀ ops : List ServiceOp,
      noRefundedAt (runOps st ops)) ∧
    (∀ (gw : GwBehavior) (sendOk : EventPublisher.SendBehavior)
      (st : SysState) (req : RefundRequest),
      ((PaymentService.refund_payment (realCollab gw sendOk)
          st req).2.payments).map eraseStatusUpd
        = st.payments.map eraseStatusUpd) ∧
    (∀ (st : SysState) (pid tx pi : String) (pr : ProcResult)
      (p : Payment),
      p ∈ (PaymentRepository.update_payment_success
        st pid tx pi pr).2.payments → p.id = pid →
      p.authorized_at = some st.clock ∧ p.captured_at = some st.clock ∧
      ∃ q ∈ st.payments, p.refunded_at = q.refunded_at) := by
  refine ⟨?_, refund_frame, ?_⟩
  · intro st h ops
    induction ops generalizing st with
    | nil => exact h
    | cons op ops ih =>
      cases op with
      | proc gw sendOk req =>
        exact ih _ (noRefundedAt_process gw sendOk st req h)
      | ref gw sendOk req =>
        exact ih _ (noRefundedAt_refund gw sendOk st req h)
  · intro st pid tx pi pr p hp hpid
    simp only [update_payment_success_eq, PaymentRepository.updateWhere,
      List.mem_map] at hp
    obtain ⟨q, hq, rfl⟩ := hp
    by_cases hqe : q.id = pid
    · rw [if_pos hqe]
      exact ⟨rfl, rfl, q, hq, rfl⟩
    · rw [if_neg hqe] at hpid ⊢
      exact absurd hpid hqe

/-- Witness for `refunded_at_never_assigned`: a refund run against the
captured 100.00 payment keeps `refunded_at` unset. -/
theorem refunded_at_never_assigned_witness :
    noRefundedAt capturedState ∧
    noRefundedAt (runOps capturedState
      [ServiceOp.ref gwAlwaysOk (fun _ => true) ⟨"tx1", 40, none⟩]) :=
  ⟨by unfold noRefundedAt; decide,
   refunded_at_never_assigned.1 capturedState (by unfold noRefundedAt; decide)
    [ServiceOp.ref gwAlwaysOk (fun _ => true) ⟨"tx1", 40, none⟩]⟩

/-- Claim C5 counterexample — when the store's status transition raises and
the best-effort FAILED marking in the `except` handler raises too,
`process_payment` propagates the exception to its caller instead of
returning a structured failure: the claim's "whatever the behavior of the
gateway, store, or publisher" does not hold. -/
theorem process_payment_raises_on_double_store_fault :
    (PaymentService.process_payment
      (doubleFaultCollab ⟨"db down"⟩ ⟨"db down"⟩ gwAlwaysOk (fun _ => true))
      emptyState ⟨"ORD-1", 100, Currency.usd, PaymentMethod.credit_card⟩).1
      = Except.error ⟨"db down"⟩ := by decide

theorem ids_ne_fresh (st : SysState) (hinv : idsBound st) :
    ∀ q ∈ st.payments, q.id ≠ uuidStr st.uuidCtr := by
  intro q hq he
  obtain ⟨⟨k, hk, hid⟩, -, -⟩ := hinv q hq
  rw [hid] at he
  exact absurd (uuidStr_injective he) (Nat.ne_of_lt hk)

theorem process_gwfail_run (gw : GwBehavior)
    (sendOk : EventPublisher.SendBehavior)
    (st : SysState) (req : ProcessPaymentRequest)
    (hgw : gw.succeed st.gwCtr = false)
    (hids : ∀ q ∈ st.payments, q.id ≠ uuidStr st.uuidCtr) :
    PaymentService.process_payment (realCollab gw sendOk) st req =
      (Except.ok (PaymentResponse.mk false none none PaymentStatus.failed
        (some (PaymentProcessor.get_error_message
          (PaymentProcessor.authErrorCodes.getD (gw.errPick st.gwCtr % 3)
            "card_declined")))),
       { payments := st.payments ++
           [{ id := uuidStr st.uuidCtr, order_id := req.order_id,
              amount := req.amount, currency := req.currency,
              payment_method := req.payment_method,
              status := PaymentStatus.failed,
              transaction_id := none, payment_intent_id := none,
              provider_response := some (ProcResult.fail
                (PaymentProcessor.authErrorCodes.getD
                  (gw.errPick st.gwCtr % 3) "card_declined")
                (PaymentProcessor.get_error_message
                  (PaymentProcessor.authErrorCodes.getD
                    (gw.errPick st.gwCtr % 3) "card_declined"))),
              error_message := some (PaymentProcessor.get_error_message
                (PaymentProcessor.authErrorCodes.getD
                  (gw.errPick st.gwCtr % 3) "card_declined")),
              created_at := st.clock, updated_at := st.clock + 3,
              authorized_at := none, captured_at := none,
              refunded_at := none }],
         refunds := st.refunds,
         attempts := st.attempts ++
           [⟨"payment.failed", uuidStr st.uuidCtr, st.clock + 4,
             EventData.failedData req.order_id req.amount req.currency
               req.payment_method
               (PaymentProcessor.get_error_message
                 (PaymentProcessor.authErrorCodes.getD
                   (gw.errPick st.gwCtr % 3) "card_declined"))⟩],
         gwLog := st.gwLog ++ [GwCall.authorize],
         uuidCtr := st.uuidCtr + 1, gwCtr := st.gwCtr + 1,
         pubCtr := st.pubCtr + 1, clock := st.clock + 5 }) := by
  unfold PaymentService.process_payment
  simp only [realCollab, create_payment_eq]
  unfold PaymentService.process_payment_try
  simp only [realCollab, update_status_eq, updateWhere_append,
    updateWhere_singleton, eq_self_iff_true, if_true,
    updateWhere_skip st.payments (uuidStr st.uuidCtr) hids]
  rw [process_gw_fail_eq gw _ req.amount req.payment_method
    (by simpa using hgw)]
  simp only [update_payment_failure_eq, updateWhere_append,
    updateWhere_singleton, eq_self_iff_true, if_true,
    updateWhere_skip st.payments (uuidStr st.uuidCtr) hids,
    List.find?_append, find?_id_skip st.payments (uuidStr st.uuidCtr) hids,
    EventPublisher.publish_payment_failed, publish_event_state]
  simp

theorem process_statusfault_run (e : PyExn) (gw : GwBehavior)
    (sendOk : EventPublisher.SendBehavior)
    (st : SysState) (req : ProcessPaymentRequest)
    (hids : ∀ q ∈ st.payments, q.id ≠ uuidStr st.uuidCtr) :
    PaymentService.process_payment (statusFaultCollab e gw sendOk) st req =
      (Except.ok (PaymentResponse.mk false none none PaymentStatus.failed
        (some ("Payment processing error: " ++ e.msg))),
       { payments := st.payments ++
           [{ id := uuidStr st.uuidCtr, order_id := req.order_id,
              amount := req.amount, currency := req.currency,
              payment_method := req.payment_method,
              status := PaymentStatus.failed,
              transaction_id := none, payment_intent_id := none,
              provider_response := none,
              error_message := some e.msg,
              created_at := st.clock, updated_at := st.clock + 2,
              authorized_at := none, captured_at := none,
              refunded_at := none }],
         refunds := st.refunds, attempts := st.attempts,
         gwLog := st.gwLog, uuidCtr := st.uuidCtr + 1, gwCtr := st.gwCtr,
         pubCtr := st.pubCtr, clock := st.clock + 3 }) := by
  unfold PaymentService.process_payment
  simp only [statusFaultCollab, realCollab, create_payment_eq]
  unfold PaymentService.process_payment_try
  simp only [statusFaultCollab, realCollab, update_payment_failure_eq,
    updateWhere_append, updateWhere_singleton, eq_self_iff_true, if_true,
    updateWhere_skip st.payments (uuidStr st.uuidCtr) hids,
    List.find?_append, find?_id_skip st.payments (uuidStr st.uuidCtr) hids]

theorem process_gw_capfail_eq (gw : GwBehavior) (st : SysState) (a : ℚ)
    (m : PaymentMethod) (h1 : gw.succeed st.gwCtr = true)
    (h2 : gw.succeed (st.gwCtr + 1) = false) :
    PaymentProcessor.process_payment gw st a m =
      (ProcResult.fail ("capture_failed") ("Failed to capture payment"),
       { st with gwLog := st.gwLog ++ [GwCall.authorize, GwCall.capture],
                 uuidCtr := st.uuidCtr + 2, gwCtr := st.gwCtr + 2,
                 clock := st.clock + 1 }) := by
  unfold PaymentProcessor.process_payment
  simp only [authorize_ok_eq gw st a m h1]
  rw [capture_fail_eq gw _ _ a (by simpa using h2)]
  simp

theorem process_capfail_run (gw : GwBehavior)
    (sendOk : EventPublisher.SendBehavior)
    (st : SysState) (req : ProcessPaymentRequest)
    (h1 : gw.succeed st.gwCtr = true)
    (h2 : gw.succeed (st.gwCtr + 1) = false)
    (hids : ∀ q ∈ st.payments, q.id ≠ uuidStr st.uuidCtr) :
    PaymentService.process_payment (realCollab gw sendOk) st req =
      (Except.ok (PaymentResponse.mk false none none PaymentStatus.failed
        (some ("Failed to capture payment"))),
       { payments := st.payments ++
           [{ id := uuidStr st.uuidCtr, order_id := req.order_id,
              amount := req.amount, currency := req.currency,
              payment_method := req.payment_method,
              status := PaymentStatus.failed,
              transaction_id := none, payment_intent_id := none,
              provider_response := some (ProcResult.fail ("capture_failed")
                ("Failed to capture payment")),
              error_message := some ("Failed to capture payment"),
              created_at := st.clock, updated_at := st.clock + 4,
              authorized_at := none, captured_at := none,
              refunded_at := none }],
         refunds := st.refunds,
         attempts := st.attempts ++
           [⟨"payment.failed", uuidStr st.uuidCtr, st.clock + 5,
             EventData.failedData req.order_id req.amount req.currency
               req.payment_method ("Failed to capture payment")⟩],
         gwLog := st.gwLog ++ [GwCall.authorize, GwCall.capture],
         uuidCtr := st.uuidCtr + 3, gwCtr := st.gwCtr + 2,
         pubCtr := st.pubCtr + 1, clock := st.clock + 6 }) := by
  unfold PaymentService.process_payment
  simp only [realCollab, create_payment_eq]
  unfold PaymentService.process_payment_try
  simp only [realCollab, update_status_eq, updateWhere_append,
    updateWhere_singleton, eq_self_iff_true, if_true,
    updateWhere_skip st.payments (uuidStr st.uuidCtr) hids]
  rw [process_gw_capfail_eq gw _ req.amount req.payment_method
    (by simpa using h1) (by simpa using h2)]
  simp only [update_payment_failure_eq, updateWhere_append,
    updateWhere_singleton, eq_self_iff_true, if_true,
    updateWhere_skip st.payments (uuidStr st.uuidCtr) hids,
    List.find?_append, find?_id_skip st.payments (uuidStr st.uuidCtr) hids,
    EventPublisher.publish_payment_failed, publish_event_state]
  simp

/-- Claim C5 as amended — (1) `process_payment` returns a structured
response rather than raising, for arbitrary collaborator behaviour,
provided record creation succeeds and the store's best-effort
failure-marking call does not itself raise; (2) if record creation
raises, the exception propagates to the caller; (3) if the best-effort
failure-marking call raises while handling a fault, that exception
propagates to the caller (the counterexample exhibits this at a concrete
input); (4) on an authorize-stage gateway failure the record is
transitioned to FAILED carrying the gateway's error message, one
`payment.failed` event is attempted, and a structured failure with that
message is returned; (5) the same holds for a capture-stage gateway
failure with the gateway's capture error message; (6) on an unexpected
fault after record creation (the status transition raising), the record
is marked FAILED with the fault detail and a structured failure is
returned. -/
theorem process_failure_handling :
    (∀ (c : Collab) (st : SysState) (req : ProcessPaymentRequest),
      (∃ p st1, c.create_payment st req.order_id req.amount req.currency
        req.payment_method = (Except.ok p, st1)) →
      (∀ st' pid em pr, ∃ r st'',
        c.update_payment_failure st' pid em pr = (Except.ok r, st'')) →
      ∃ resp st', PaymentService.process_payment c st req
        = (Except.ok resp, st')) ∧
    (∀ (c : Collab) (st : SysState) (req : ProcessPaymentRequest)
      (e : PyExn) (st1 : SysState),
      c.create_payment st req.order_id req.amount req.currency
        req.payment_method = (Except.error e, st1) →
      PaymentService.process_payment c st req = (Except.error e, st1)) ∧
    (∀ (c : Collab) (st : SysState) (req : ProcessPaymentRequest)
      (p : Payment) (st1 : SysState) (e : PyExn) (st2 : SysState)
      (e2 : PyExn) (st3 : SysState),
      c.create_payment st req.order_id req.amount req.currency
        req.payment_method = (Except.ok p, st1) →
      PaymentService.process_payment_try c st1 p req
        = (Except.error e, st2) →
      c.update_payment_failure st2 p.id e.msg none
        = (Except.error e2, st3) →
      PaymentService.process_payment c st req = (Except.error e2, st3)) ∧
    (∀ (gw : GwBehavior) (sendOk : EventPublisher.SendBehavior)
      (st : SysState) (req : ProcessPaymentRequest),
      gw.succeed st.gwCtr = false → idsBound st →
      ∃ st',
        PaymentService.process_payment (realCollab gw sendOk) st req =
          (Except.ok (PaymentResponse.mk false none none
            PaymentStatus.failed
            (some (PaymentProcessor.get_error_message
              (PaymentProcessor.authErrorCodes.getD
                (gw.errPick st.gwCtr % 3) ("card_declined"))))), st') ∧
        (∃ prow,
          PaymentRepository.get_by_id st' (uuidStr st.uuidCtr)
            = some prow ∧
          prow.status = PaymentStatus.failed ∧
          prow.error_message = some (PaymentProcessor.get_error_message
            (PaymentProcessor.authErrorCodes.getD (gw.errPick st.gwCtr % 3)
              ("card_declined")))) ∧
        (∃ t2, st'.attempts = st.attempts ++
          [⟨"payment.failed", uuidStr st.uuidCtr, t2,
            EventData.failedData req.order_id req.amount req.currency
              req.payment_method
              (PaymentProcessor.get_error_message
                (PaymentProcessor.authErrorCodes.getD
                  (gw.errPick st.gwCtr % 3) ("card_declined")))⟩])) ∧
    (∀ (gw : GwBehavior) (sendOk : EventPublisher.SendBehavior)
      (st : SysState) (req : ProcessPaymentRequest),
      gw.succeed st.gwCtr = true → gw.succeed (st.gwCtr + 1) = false →
      idsBound st →
      ∃ st',
        PaymentService.process_payment (realCollab gw sendOk) st req =
          (Except.ok (PaymentResponse.mk false none none
            PaymentStatus.failed
            (some ("Failed to capture payment"))), st') ∧
        (∃ prow,
          PaymentRepository.get_by_id st' (uuidStr st.uuidCtr)
            = some prow ∧
          prow.status = PaymentStatus.failed ∧
          prow.error_message = some ("Failed to capture payment")) ∧
        (∃ t2, st'.attempts = st.attempts ++
          [⟨"payment.failed", uuidStr st.uuidCtr, t2,
            EventData.failedData req.order_id req.amount req.currency
              req.payment_method ("Failed to capture payment")⟩])) ∧
    (∀ (e : PyExn) (gw : GwBehavior)
      (sendOk : EventPublisher.SendBehavior)
      (st : SysState) (req : ProcessPaymentRequest), idsBound st →
      ∃ st',
        PaymentService.process_payment (statusFaultCollab e gw sendOk)
          st req =
          (Except.ok (PaymentResponse.mk false none none
            PaymentStatus.failed
            (some ("Payment processing error: " ++ e.msg))), st') ∧
        (∃ prow,
          PaymentRepository.get_by_id st' (uuidStr st.uuidCtr)
            = some prow ∧
          prow.status = PaymentStatus.failed ∧
          prow.error_message = some e.msg)) := by
  refine ⟨?_, ?_, ?_, ?_, ?_, ?_⟩
  · intro c st req hcreate hupf
    obtain ⟨p, st1, hc⟩ := hcreate
    unfold PaymentService.process_payment
    simp only [hc]
    rcases htry : PaymentService.process_payment_try c st1 p req
      with ⟨res, st2⟩
    cases res with
    | ok resp =>
      simp only [htry]
      exact ⟨resp, st2, rfl⟩
    | error e =>
      obtain ⟨r, st3, hf⟩ := hupf st2 p.id e.msg none
      simp only [htry, hf]
      exact ⟨_, _, rfl⟩
  · intro c st req e st1 hc
    unfold PaymentService.process_payment
    simp only [hc]
  · intro c st req p st1 e st2 e2 st3 hc htry hf
    unfold PaymentService.process_payment
    simp only [hc, htry, hf]
  · intro gw sendOk st req hgw hinv
    have hids := ids_ne_fresh st hinv
    refine ⟨_, process_gwfail_run gw sendOk st req hgw hids,
      ?_, ⟨st.clock + 4, rfl⟩⟩
    unfold PaymentRepository.get_by_id
    simp only [List.find?_append,
      find?_id_skip st.payments (uuidStr st.uuidCtr) hids]
    simp
  · intro gw sendOk st req h1 h2 hinv
    have hids := ids_ne_fresh st hinv
    refine ⟨_, process_capfail_run gw sendOk st req h1 h2 hids,
      ?_, ⟨st.clock + 5, rfl⟩⟩
    unfold PaymentRepository.get_by_id
    simp only [List.find?_append,
      find?_id_skip st.payments (uuidStr st.uuidCtr) hids]
    simp
  · intro e gw sendOk st req hinv
    have hids := ids_ne_fresh st hinv
    refine ⟨_, process_statusfault_run e gw sendOk st req hids, ?_⟩
    unfold PaymentRepository.get_by_id
    simp only [List.find?_append,
      find?_id_skip st.payments (uuidStr st.uuidCtr) hids]
    simp

/-- Witness for `process_failure_handling`: the healthy collaborators
satisfy both store hypotheses, so processing at the empty store returns
a structured response. -/
theorem process_failure_handling_witness :
    ∃ resp st', PaymentService.process_payment okCollab emptyState
      ⟨"ORD-1", 100, Currency.usd, PaymentMethod.credit_card⟩
      = (Except.ok resp, st') :=
  process_failure_handling.1 okCollab emptyState
    ⟨"ORD-1", 100, Currency.usd, PaymentMethod.credit_card⟩
    ⟨_, _, rfl⟩ (fun st' pid em pr => ⟨_, _, rfl⟩)
